import Mathlib

/-!
Verification of the Wyze camera proxy server
(`src/packages/wyze-cameras/server/wyze_server.py`).

The Python module is shallowly embedded below:

* Pure helpers (`_hash_password`, `_name_uri`, the signaling URL rewrite of
  `get_webrtc_signaling`) become pure Lean functions on `String`/`List Char`.
  Python `str` operations are modelled at the Unicode-scalar level; the
  locale-independent ASCII fragments of `str.lower`, `\w` and `str.strip`
  are spelled out explicitly, and theorems that depend on them restrict
  their inputs to ASCII where the Python behaviour beyond ASCII would
  require full Unicode tables.
* Stateful code (module globals `_creds`, `_cameras`, `_cameras_ts`, the
  token file) becomes explicit state passing over a `St` record.
* The network is an oracle `Env : Nat → VResp` giving the response to the
  n-th outbound HTTP request of the run; every issued request is recorded
  in a trace (`St.calls`) together with the access token it carried.
* Fallible code returns `Except Err`; a Python `raise` is an `Except.error`.
  The unbounded mutual recursion `_validate` ↔ `_refresh_token` is given a
  fuel parameter; exhausted fuel (`Err.outOfFuel`) models the infinite
  recursion that the Python code would enter if a refresh response itself
  reported code "2001".
* External library primitives that the module merely calls
  (`hashlib.md5(...).hexdigest()`, `urllib.parse.unquote`) are taken as
  function parameters `md5hex`/`unquote`: the module under verification
  never inspects their output.
* `time.time()` values are passed in as the parameter `now`. Python floats
  are modelled as `Int` seconds; every claim about the cache concerns only
  the ordering `now - ts < 120`, which is insensitive to this choice.
-/

namespace Wyze

/-! ## Python string primitives (ASCII-exact fragments) -/

/-- Python `str.isspace` / `str.strip` whitespace, restricted to the ASCII
range: `\t \n \v \f \r`, the separator controls `\x1c`–`\x1f`, and space. -/
def pySpace (c : Char) : Bool :=
  (9 ≤ c.toNat && c.toNat ≤ 13) || (28 ≤ c.toNat && c.toNat ≤ 31) || c.toNat = 32

/-- Python `str.strip()` (no argument): drop leading and trailing whitespace. -/
def pyStrip (l : List Char) : List Char :=
  ((l.dropWhile pySpace).reverse.dropWhile pySpace).reverse

/-- Python `str.lower` on the ASCII fragment: `A`–`Z` map to `a`–`z`,
everything else is left unchanged.  (Full Unicode lowercasing is not
modelled; theorems using this restrict inputs to ASCII.) -/
def pyLower (c : Char) : Char :=
  if 65 ≤ c.toNat && c.toNat ≤ 90 then Char.ofNat (c.toNat + 32) else c

/-- Python regex `\w` on the ASCII fragment: `[A-Za-z0-9_]`. -/
def pyWordChar (c : Char) : Bool :=
  c.isAlphanum || c = '_'

/-- Codepoints that survive `str.encode("ascii", ...)`. -/
def asciiChar (c : Char) : Bool :=
  c.toNat ≤ 127

/-- `p.isPrefixOf s` on raw character lists, returning the remainder:
`dropPre p s = some r` iff `s = p ++ r`. -/
def dropPre : List Char → List Char → Option (List Char)
  | [], s => some s
  | _ :: _, [] => none
  | c :: p, d :: s => if c = d then dropPre p s else none

/-! ## `_hash_password` (wyze_server.py lines 63–70)

```python
def _hash_password(password: str) -> str:
    encoded = password.strip()
    for prefix in ("hashed:", "md5:"):
        if encoded.lower().startswith(prefix):
            return encoded[len(prefix):]
    for _ in range(3):
        encoded = hashlib.md5(encoded.encode("ascii")).hexdigest()
    return encoded
```

`hashlib.md5(...).hexdigest()` is the abstract parameter `md5hex` (its
output is hexadecimal ASCII, so only the first round's `encode("ascii")`
can fail).  `encode("ascii")` raises `UnicodeEncodeError` on any codepoint
above 127; that raise is modelled as `none`. -/

def hash_password (md5hex : String → String) (password : String) : Option String :=
  let encoded := pyStrip password.data
  if dropPre "hashed:".data (encoded.map pyLower) matches some _ then
    some (String.mk (encoded.drop 7))
  else if dropPre "md5:".data (encoded.map pyLower) matches some _ then
    some (String.mk (encoded.drop 4))
  else if encoded.all asciiChar then
    some (md5hex (md5hex (md5hex (String.mk encoded))))
  else
    none

/-! ## `_name_uri` (wyze_server.py lines 149–152)

```python
def _name_uri(nickname, mac):
    name = nickname or mac
    uri = re.sub(r"[^\-\w+]", "", name.strip().replace(" ", "-")).lower()
    return uri.encode("ascii", "ignore").decode()
```
-/

def name_uri (nickname mac : String) : String :=
  let name := if nickname = "" then mac else nickname
  let replaced := (pyStrip name.data).map (fun c => if c = ' ' then '-' else c)
  let subbed := replaced.filter (fun c => c = '-' || pyWordChar c || c = '+')
  let lowered := subbed.map pyLower
  String.mk (lowered.filter asciiChar)

/-- The slug pipeline in the order the specification words it: strip,
spaces to hyphens, drop characters other than alphanumeric/hyphen/
underscore/plus, drop non-ASCII, and lowercase the result. -/
def name_uri_spec (nickname mac : String) : String :=
  let name := if nickname = "" then mac else nickname
  let replaced := (pyStrip name.data).map (fun c => if c = ' ' then '-' else c)
  let subbed := replaced.filter (fun c => c = '-' || pyWordChar c || c = '+')
  let asciied := subbed.filter asciiChar
  String.mk (asciied.map pyLower)

/-! ## Signaling URL rewrite (wyze_server.py lines 273–281)

```python
for s in data.get("results", {}).get("servers", []):
    if "url" in s:
        s["urls"] = s.pop("url")
    urls = s.get("urls", "")
    m = re.match(r'^(turns?:)(\d+)-(\d+)-(\d+)-(\d+)\.t-[^:]+(:.*)', urls)
    if m:
        s["urls"] = f"{m.group(1)}{m.group(2)}.{m.group(3)}.{m.group(4)}.{m.group(5)}{m.group(6)}"
```

`matchKinesis` is a deterministic parser for exactly this regular
expression (the pattern is unambiguous: each `\d+` and `[^:]+` is followed
by a character its class cannot match, so maximal munch is the unique
match, and `turns?` is resolved greedily).  `re.match` is a prefix match
and `.` does not match a newline, so a trailing `\n…` part of the string
would be dropped by the rebuild from groups; the parser reproduces that. -/

/-- One `(\d+)` group followed by a separator: the maximal leading digit
run, which must be non-empty. -/
def digitsPart (s : List Char) : Option (List Char × List Char) :=
  let ds := s.takeWhile Char.isDigit
  if ds = [] then none else some (ds, s.dropWhile Char.isDigit)

/-- Require a literal character. -/
def expectChar (c : Char) : List Char → Option (List Char)
  | [] => none
  | d :: s => if d = c then some s else none

/-- `re.match(r'^(turns?:)(\d+)-(\d+)-(\d+)-(\d+)\.t-[^:]+(:.*)', s)`,
returning the rebuilt string `group1 ++ g2.g3.g4.g5 ++ group6` on
success. -/
def matchKinesis (s : List Char) : Option (List Char) :=
  let scheme? : Option (List Char × List Char) :=
    match dropPre "turns:".data s with
    | some r => some ("turns:".data, r)
    | none =>
      match dropPre "turn:".data s with
      | some r => some ("turn:".data, r)
      | none => none
  match scheme? with
  | none => none
  | some (scheme, r0) =>
    match digitsPart r0 with
    | none => none
    | some (a, r1) =>
      match expectChar '-' r1 with
      | none => none
      | some r2 =>
        match digitsPart r2 with
        | none => none
        | some (b, r3) =>
          match expectChar '-' r3 with
          | none => none
          | some r4 =>
            match digitsPart r4 with
            | none => none
            | some (c, r5) =>
              match expectChar '-' r5 with
              | none => none
              | some r6 =>
                match digitsPart r6 with
                | none => none
                | some (d, r7) =>
                  match expectChar '.' r7 with
                  | none => none
                  | some r8 =>
                    match expectChar 't' r8 with
                    | none => none
                    | some r9 =>
                      match expectChar '-' r9 with
                      | none => none
                      | some r10 =>
                        let t := r10.takeWhile (fun ch => ch ≠ ':')
                        if t = [] then none
                        else
                          match r10.dropWhile (fun ch => ch ≠ ':') with
                          | ':' :: rest =>
                            some (scheme ++ a ++ '.' :: b ++ '.' :: c ++ '.' :: d
                                  ++ ':' :: rest.takeWhile (fun ch => ch ≠ '\n'))
                          | _ => none

/-- Apply the hyphened-IP rewrite to one URL string, leaving it unchanged
when the pattern does not match. -/
def rewriteUrl (u : String) : String :=
  match matchKinesis u.data with
  | some r => String.mk r
  | none => u

/-- One relay-server descriptor: `url`/`urls` are `none` when the key is
absent from the JSON object. -/
structure SrvDesc where
  url : Option String
  urls : Option String
deriving DecidableEq

/-- The per-descriptor normalization loop body: rename a legacy singular
`url` key to `urls`, then rewrite a hyphened-IP hostname. -/
def normalizeServer (s : SrvDesc) : SrvDesc :=
  let s1 := match s.url with
    | some u => { url := none, urls := some u }
    | none => s
  match matchKinesis (s1.urls.getD "").data with
  | some r => { s1 with urls := some (String.mk r) }
  | none => s1

/-! ## Credentials, token file, `_load_tokens` (wyze_server.py 113–122) -/

/-- The credential dict `_creds`: the fields the module reads by name,
plus `extra` for the remaining key/value pairs of the login response
(carried along untouched). -/
structure Creds where
  access_token : String
  refresh_token : String
  phone_id : String
  extra : List (String × String)
deriving DecidableEq

/-- The local token file: missing, present but not valid JSON, or a stored
credential. -/
inductive FileState
  | missing
  | corrupt
  | stored (c : Creds)
deriving DecidableEq

inductive Err
  | tokenRefreshed
  | wyzeApi (code msg : String)
  | netError
  | jsonError
  | noCreds
  | outOfFuel
deriving DecidableEq

deriving instance DecidableEq for Except

/-- `_load_tokens()`: returns the Python function's boolean result and the
new value of the global `_creds`.

```python
def _load_tokens():
    global _creds
    if TOKEN_FILE.exists():
        _creds = json.loads(TOKEN_FILE.read_text())
        return True
    return False
```

`json.loads` on unparseable text raises `json.JSONDecodeError`; there is
no handler, so the raise propagates (`Except.error .jsonError`). -/
def load_tokens (fs : FileState) (creds : Option Creds) :
    Except Err (Bool × Option Creds) :=
  match fs with
  | .missing => .ok (false, creds)
  | .corrupt => .error .jsonError
  | .stored c => .ok (true, some c)

/-! ## The vendor oracle and the mutable module state -/

/-- Which endpoint an outbound HTTP request hits. -/
inductive CallKind
  | listing        -- POST /v2/home_page/get_object_list
  | runAction      -- POST /v2/auto/run_action
  | setProperty    -- POST /v2/device/set_property
  | getDeviceInfo  -- POST /v2/device/get_device_Info
  | signaling      -- GET webrtc.../signaling/device/{mac}
  | refreshTok     -- POST /user/refresh_token
  | thumbFetch     -- GET of a signed thumbnail URL (unauthenticated)
deriving DecidableEq

/-- One recorded outbound request: its endpoint and the access token the
request carried (`none` for the unauthenticated thumbnail fetch). -/
structure Call where
  kind : CallKind
  token : Option String
deriving DecidableEq

/-- A raw entry of the vendor's `device_list`; `none` marks an absent key.
The nested `device_params`/`camera_thumbnails` dicts are flattened into
one optional record (`params.get(...)` on an absent dict and an absent key
coincide: both give `None`). -/
structure RawParams where
  ip : Option String
  thumbnails_url : Option String
deriving DecidableEq

structure RawDevice where
  product_type : Option String
  mac : Option String
  product_model : Option String
  nickname : Option String
  device_params : Option RawParams
  firmware_ver : Option String
  device_conn_state : Option Int
deriving DecidableEq

/-- A parsed vendor response body.  `code` is the already stringified
`str(data.get("code", data.get("errorCode", 0)))`.  `raises = true` means
the `requests` call itself raised (network failure) before any body
existed.  The remaining fields are the payload pieces the module reads;
the payload handed back by `_validate` (`data.get("data", data)`) is
modelled as the response record itself. -/
structure VResp where
  raises : Bool
  code : String
  msg : String
  access_token : Option String
  refresh_token : Option String
  device_list : List RawDevice
  servers : List SrvDesc
  signalingUrl : String
  httpStatus : Nat
  content : String
  ctype : Option String
deriving DecidableEq

/-- A syntactically valid but failing default response (used only to give
concrete oracles a value beyond their scripted prefix). -/
def VResp.dflt : VResp :=
  ⟨false, "9999", "unscripted", none, none, [], [], "", 0, "", none⟩

/-- The vendor oracle: the response to the n-th outbound request. -/
abbrev Env := Nat → VResp

/-- A normalized camera record, as built by `fetch_cameras`. -/
structure Camera where
  mac : String
  nickname : String
  name_uri : String
  model : String
  model_name : String
  firmware_ver : Option String
  ip : Option String
  thumbnail : Option String
  is_pan : Bool
  is_2k : Bool
  online : Bool
deriving DecidableEq

/-- The module's mutable globals plus the request trace. -/
structure St where
  creds : Option Creds
  tokenFile : FileState
  cameras : List Camera
  cameras_ts : Int
  calls : List Call
deriving DecidableEq

def CACHE_TTL : Int := 120

/-- Record one outbound request and give it the next oracle response. -/
def issue (env : Env) (k : CallKind) (tok : Option String) (st : St) :
    VResp × St :=
  (env st.calls.length, { st with calls := st.calls ++ [⟨k, tok⟩] })

/-! ## `_validate` and `_refresh_token` (wyze_server.py 97–110, 138–146)

```python
def _validate(resp):
    data = resp.json()
    code = str(data.get("code", data.get("errorCode", 0)))
    if code == "2001":
        _refresh_token()
        raise TokenRefreshed()
    if code not in ("1", "0"):
        msg = data.get("msg", data.get("description", code))
        raise Exception(f"Wyze API error: {code} - {msg}")
    return data.get("data", data)

def _refresh_token():
    global _creds
    payload = _payload()
    payload["refresh_token"] = _creds["refresh_token"]
    resp = requests.post(f"{WYZE_API}/user/refresh_token", json=payload, headers=_headers())
    data = _validate(resp)
    _creds["access_token"] = data.get("access_token", _creds["access_token"])
    _creds["refresh_token"] = data.get("refresh_token", _creds["refresh_token"])
    _save_tokens()
```

The two functions are mutually recursive with no bound (a refresh response
with code "2001" recurses).  To keep the embedding structurally recursive
(and hence kernel-computable), `validate` carries fuel and inlines the
body of `_refresh_token` in its "2001" branch; the standalone
`refresh_token` below repeats that body, and `validate_code_2001`
(further down) proves the two agree, recovering the source's mutual
structure. -/

def validate (fuel : Nat) (env : Env) (st : St) (resp : VResp) :
    Except Err VResp × St :=
  match fuel with
  | 0 => (.error .outOfFuel, st)
  | fuel + 1 =>
    if resp.code = "2001" then
      -- _refresh_token(), then raise TokenRefreshed()
      match st.creds with
      | none => (.error .noCreds, st)
      | some c =>
        let (rresp, st1) := issue env .refreshTok (some c.access_token) st
        if rresp.raises then (.error .netError, st1)
        else
          match validate fuel env st1 rresp with
          | (.error e, st2) => (.error e, st2)
          | (.ok d, st2) =>
            match st2.creds with
            | none => (.error .noCreds, st2)
            | some c2 =>
              let c3 := { c2 with
                access_token := d.access_token.getD c2.access_token,
                refresh_token := d.refresh_token.getD c2.refresh_token }
              (.error .tokenRefreshed,
               { st2 with creds := some c3, tokenFile := .stored c3 })
    else if resp.code = "1" ∨ resp.code = "0" then
      (.ok resp, st)
    else
      (.error (.wyzeApi resp.code resp.msg), st)

/-- Standalone `_refresh_token()` (same body as the "2001" branch of
`validate`, returning `()` instead of raising `TokenRefreshed`). -/
def refresh_token (fuel : Nat) (env : Env) (st : St) : Except Err Unit × St :=
  match st.creds with
  | none => (.error .noCreds, st)
  | some c =>
    let (rresp, st1) := issue env .refreshTok (some c.access_token) st
    if rresp.raises then (.error .netError, st1)
    else
      match validate fuel env st1 rresp with
      | (.error e, st2) => (.error e, st2)
      | (.ok d, st2) =>
        match st2.creds with
        | none => (.error .noCreds, st2)
        | some c2 =>
          let c3 := { c2 with
            access_token := d.access_token.getD c2.access_token,
            refresh_token := d.refresh_token.getD c2.refresh_token }
          (.ok (), { st2 with creds := some c3, tokenFile := .stored c3 })

/-- The "2001" branch of `validate` is `refresh_token` followed by the
`TokenRefreshed` raise: the embedding agrees with the source's mutually
recursive structure. -/
theorem validate_code_2001 (fuel : Nat) (env : Env) (st : St) (resp : VResp)
    (h : resp.code = "2001") :
    validate (fuel + 1) env st resp =
      match refresh_token fuel env st with
      | (.ok _, st') => (.error .tokenRefreshed, st')
      | (.error e, st') => (.error e, st') := by
  simp only [validate, refresh_token, h, if_pos]
  cases hc : st.creds with
  | none => rfl
  | some c =>
    simp only
    cases hr : (issue env .refreshTok (some c.access_token) st).1.raises
    · simp only [Bool.false_eq_true, if_false]
      rcases hv : validate fuel env _ _ with ⟨res, st2⟩
      cases res <;> simp only <;> cases h2 : st2.creds <;> rfl
    · rfl

/-! ## `fetch_cameras` (wyze_server.py 155–205) -/

/-- The static model → label table `MODEL_NAMES`. -/
def MODEL_NAMES : List (String × String) :=
  [("WYZEC1", "V1"), ("WYZEC1-JZ", "V2"), ("WYZE_CAKP2JFUS", "V3"), ("HL_CAM4", "V4"),
   ("HL_CAM3P", "V3 Pro"), ("WYZECP1_JEF", "Pan"), ("HL_PAN2", "Pan V2"), ("HL_PAN3", "Pan V3"),
   ("HL_PANP", "Pan Pro"), ("HL_CFL2", "Floodlight V2"), ("WYZEDB3", "Doorbell"),
   ("HL_DB2", "Doorbell V2"), ("GW_BE1", "Doorbell Pro"), ("AN_RDB1", "Doorbell Pro 2"),
   ("GW_GC1", "OG"), ("GW_GC2", "OG 3X"), ("WVOD1", "Outdoor"), ("HL_WCO2", "Outdoor V2"),
   ("AN_RSCW", "Battery Cam Pro"), ("LD_CFP", "Floodlight Pro")]

def PAN_CAMS : List String := ["WYZECP1_JEF", "HL_PAN2", "HL_PAN3", "HL_PANP"]

def PRO_CAMS : List String := ["HL_CAM3P", "HL_PANP", "HL_CAM4", "HL_DB2", "HL_CFL2"]

/-- Python truthiness of an optional string (`not mac` is true for both a
missing key and an empty string). -/
def strFalsy : Option String → Bool
  | none => true
  | some s => s = ""

/-- The loop body of `fetch_cameras`: skip non-cameras and entries with a
falsy `mac` or `product_model`, normalize the rest.

```python
if dev.get("product_type") != "Camera": continue
mac = dev.get("mac"); model = dev.get("product_model")
if not mac or not model: continue
params = dev.get("device_params", {})
thumbs = params.get("camera_thumbnails", {})
nickname = dev.get("nickname", mac)
cameras.append({...})
```
-/
def normalize_dev (dev : RawDevice) : Option Camera :=
  if dev.product_type ≠ some "Camera" then none
  else if strFalsy dev.mac || strFalsy dev.product_model then none
  else
    match dev.mac, dev.product_model with
    | some mac, some model =>
      let nickname := dev.nickname.getD mac
      some
        { mac := mac
          nickname := nickname
          name_uri := name_uri nickname mac
          model := model
          model_name := (MODEL_NAMES.lookup model).getD model
          firmware_ver := dev.firmware_ver
          ip := (dev.device_params.getD ⟨none, none⟩).ip
          thumbnail := (dev.device_params.getD ⟨none, none⟩).thumbnails_url
          is_pan := PAN_CAMS.contains model
          is_2k := PRO_CAMS.contains model
          online := dev.device_conn_state.getD 0 = 1 }
    | _, _ => none

def normalize_list (l : List RawDevice) : List Camera :=
  l.filterMap normalize_dev

/-! `fetch_cameras()` — `now` is the value of `time.time()`.

```python
def fetch_cameras():
    global _cameras, _cameras_ts
    if not _creds: return []
    now = time.time()
    if _cameras and (now - _cameras_ts) < CACHE_TTL:
        return _cameras
    try:
        resp = requests.post(...get_object_list..., json=_payload(), headers=_headers())
        data = _validate(resp)
    except TokenRefreshed:
        resp = requests.post(...get_object_list..., json=_payload(), headers=_headers())
        data = _validate(resp)
    cameras = [... normalize ...]
    _cameras = cameras
    _cameras_ts = now
    return cameras
```
-/
/-! The signed-call-with-refresh-retry pattern, shared verbatim (up to the
target endpoint `k`) by the bodies of `fetch_cameras`, `run_action`,
`set_property`, `get_device_info` and `get_webrtc_signaling`:

```python
try:
    resp = requests.post(<endpoint k>, json=<signed payload>, headers=_headers())
    return _validate(resp)
except TokenRefreshed:
    <rebuild payload / headers with the refreshed access token>
    resp = requests.post(<endpoint k>, json=<signed payload>, headers=_headers())
    return _validate(resp)
```

Only `TokenRefreshed` is caught, and only around the first issue: any
exception from the retried `_validate` (including a second
`TokenRefreshed`) propagates.  The signed payload's `access_token` is read
from the current `_creds` at each build, which is why the retry carries
the refreshed token. -/
/-- One signed attempt: build the payload from the current `_creds`,
post, and `_validate` the response. -/
def signed_once (k : CallKind) (fuel : Nat) (env : Env) (st : St) :
    Except Err VResp × St :=
  match st.creds with
  | none => (.error .noCreds, st)
  | some c =>
    let (resp, st1) := issue env k (some c.access_token) st
    if resp.raises then (.error .netError, st1)
    else validate fuel env st1 resp

def signed_call (k : CallKind) (fuel : Nat) (env : Env) (st : St) :
    Except Err VResp × St :=
  match signed_once k fuel env st with
  | (.error .tokenRefreshed, st2) => signed_once k fuel env st2
  | other => other

def fetch_cameras (fuel : Nat) (env : Env) (now : Int) (st : St) :
    Except Err (List Camera) × St :=
  match st.creds with
  | none => (.ok [], st)
  | some _ =>
    if st.cameras ≠ [] ∧ now - st.cameras_ts < CACHE_TTL then (.ok st.cameras, st)
    else
      match signed_call .listing fuel env st with
      | (.error e, st') => (.error e, st')
      | (.ok data, st') =>
        let cameras := normalize_list data.device_list
        (.ok cameras, { st' with cameras := cameras, cameras_ts := now })

/-! ## `run_action`, `set_property`, `get_device_info` (wyze_server.py 208–247)

Each is one instance of the `signed_call` pattern.  The request parameters
(`mac`, `model`, …) only feed the wire payload, which the oracle
abstracts; they are kept as arguments for fidelity. -/

def run_action (fuel : Nat) (env : Env) (mac model action : String) (st : St) :
    Except Err VResp × St :=
  match mac, model, action with
  | _, _, _ => signed_call .runAction fuel env st

def set_property (fuel : Nat) (env : Env) (mac model pid pvalue : String) (st : St) :
    Except Err VResp × St :=
  match mac, model, pid, pvalue with
  | _, _, _, _ => signed_call .setProperty fuel env st

def get_device_info (fuel : Nat) (env : Env) (mac model : String) (st : St) :
    Except Err VResp × St :=
  match mac, model with
  | _, _ => signed_call .getDeviceInfo fuel env st

/-! ## `get_webrtc_signaling` (wyze_server.py 250–287)

The bearer-token GET with the same refresh-retry pattern, followed by the
descriptor normalization loop and the result dict
`{"ClientId": _creds["phone_id"], "signalingUrl": unquote(...), "servers": ...}`.
`urllib.parse.unquote` is the abstract parameter `unquote`;
`_creds["phone_id"]` is read after the call, from the (possibly refreshed)
current credential. -/

structure SignalBundle where
  ClientId : String
  signalingUrl : String
  servers : List SrvDesc
deriving DecidableEq

def get_webrtc_signaling (unquote : String → String) (fuel : Nat) (env : Env)
    (mac : String) (st : St) : Except Err SignalBundle × St :=
  match mac with
  | _ =>
    match signed_call .signaling fuel env st with
    | (.error e, st') => (.error e, st')
    | (.ok data, st') =>
      match st'.creds with
      | none => (.error .noCreds, st')
      | some c' =>
        (.ok
          { ClientId := c'.phone_id
            signalingUrl := unquote data.signalingUrl
            servers := data.servers.map normalizeServer },
         st')

/-! ## Route handlers (wyze_server.py 296–407)

A handler's raised exception that no `try` catches is modelled as an
`Except.error` result (Flask would turn it into a generic 500).  Error
JSON bodies are modelled by their `error` message; the auxiliary
`result`/`cam` keys some of them carry are not observable by any claim and
are dropped. -/

inductive Body
  | cams (l : List Camera)
  | cam (c : Camera)
  | errorBody (m : String)
  | errorOf (e : Err)
  | payload (d : VResp)
  | actionResult (d : VResp)
  | signalOk (s : SignalBundle) (cam : String)
  | thumbData (content ctype : String)
deriving DecidableEq

structure HttpResp where
  status : Nat
  body : Body
deriving DecidableEq

/-- `_find_camera`: `fetch_cameras()` then first match on `name_uri`. -/
def find_camera (fuel : Nat) (env : Env) (now : Int) (slug : String) (st : St) :
    Except Err (Option Camera) × St :=
  match fetch_cameras fuel env now st with
  | (.ok cams, st') => (.ok (cams.find? (fun cam => cam.name_uri = slug)), st')
  | (.error e, st') => (.error e, st')

/-- `GET /api/<name_uri>`. -/
def api_camera_detail (fuel : Nat) (env : Env) (now : Int) (slug : String)
    (st : St) : Except Err HttpResp × St :=
  match find_camera fuel env now slug st with
  | (.error e, st') => (.error e, st')
  | (.ok none, st') => (.ok ⟨404, .errorBody "Camera not found"⟩, st')
  | (.ok (some cam), st') => (.ok ⟨200, .cam cam⟩, st')

/-- `GET /api/<name_uri>/info`. -/
def api_camera_info (fuel : Nat) (env : Env) (now : Int) (slug : String)
    (st : St) : Except Err HttpResp × St :=
  match find_camera fuel env now slug st with
  | (.error e, st') => (.error e, st')
  | (.ok none, st') => (.ok ⟨404, .errorBody "Camera not found"⟩, st')
  | (.ok (some cam), st') =>
    match get_device_info fuel env cam.mac cam.model st' with
    | (.ok info, st2) => (.ok ⟨200, .payload info⟩, st2)
    | (.error e, st2) => (.ok ⟨500, .errorOf e⟩, st2)

def PROP_MAP : List (String × String) :=
  [("status_light", "P1"), ("night_vision", "P2"),
   ("motion_detection", "P13"), ("motion_tracking", "P27")]

def ACTIONS : List (String × String) :=
  [("power_on", "power_on"), ("power_off", "power_off"),
   ("turn_on", "power_on"), ("turn_off", "power_off"), ("restart", "restart")]

/-- `GET|POST|PUT /api/<name_uri>/<action>`; `value` is the optional
`value` query parameter (`request.args.get("value", "1")`). -/
def api_camera_action (fuel : Nat) (env : Env) (now : Int)
    (slug action : String) (value : Option String) (st : St) :
    Except Err HttpResp × St :=
  match find_camera fuel env now slug st with
  | (.error e, st') => (.error e, st')
  | (.ok none, st') => (.ok ⟨404, .errorBody "Camera not found"⟩, st')
  | (.ok (some cam), st') =>
    match PROP_MAP.lookup action with
    | some pid =>
      match set_property fuel env cam.mac cam.model pid (value.getD "1") st' with
      | (.ok result, st2) => (.ok ⟨200, .actionResult result⟩, st2)
      | (.error e, st2) => (.ok ⟨500, .errorOf e⟩, st2)
    | none =>
      let action_key := (ACTIONS.lookup action).getD action
      match run_action fuel env cam.mac cam.model action_key st' with
      | (.ok result, st2) => (.ok ⟨200, .actionResult result⟩, st2)
      | (.error e, st2) => (.ok ⟨500, .errorOf e⟩, st2)

/-- `GET /signaling/<name_uri>`. -/
def api_signaling (unquote : String → String) (fuel : Nat) (env : Env)
    (now : Int) (slug : String) (st : St) : Except Err HttpResp × St :=
  match find_camera fuel env now slug st with
  | (.error e, st') => (.error e, st')
  | (.ok none, st') => (.ok ⟨404, .errorBody "Camera not found"⟩, st')
  | (.ok (some cam), st') =>
    match get_webrtc_signaling unquote fuel env cam.mac st' with
    | (.ok signal, st2) => (.ok ⟨200, .signalOk signal slug⟩, st2)
    | (.error e, st2) => (.ok ⟨500, .errorOf e⟩, st2)

/-- `GET /thumb/<name_uri>`.  The two thumbnail GETs are unauthenticated
`thumbFetch` requests against the same oracle; `requests.get` raising is
`resp.raises` and is swallowed by the bare `except`.  On a failed first
fetch the handler zeroes `_cameras_ts` and forces one `fetch_cameras`. -/
def api_thumbnail (fuel : Nat) (env : Env) (now : Int) (slug : String)
    (st : St) : Except Err HttpResp × St :=
  match find_camera fuel env now slug st with
  | (.error e, st') => (.error e, st')
  | (.ok cam?, st') =>
    match cam? with
    | none => (.ok ⟨404, .errorBody "No thumbnail"⟩, st')
    | some cam =>
      if strFalsy cam.thumbnail then (.ok ⟨404, .errorBody "No thumbnail"⟩, st')
      else
        let (tresp, st1) := issue env .thumbFetch none st'
        if !tresp.raises && tresp.httpStatus = 200 then
          (.ok ⟨200, .thumbData tresp.content (tresp.ctype.getD "image/jpeg")⟩, st1)
        else
          match fetch_cameras fuel env now { st1 with cameras_ts := 0 } with
          | (.error e, st2) => (.error e, st2)
          | (.ok cameras, st2) =>
            match cameras.find? (fun cc => cc.name_uri = slug) with
            | some cam2 =>
              if strFalsy cam2.thumbnail then
                (.ok ⟨404, .errorBody "Thumbnail unavailable"⟩, st2)
              else
                let (tresp2, st3) := issue env .thumbFetch none st2
                if !tresp2.raises && tresp2.httpStatus = 200 then
                  (.ok ⟨200, .thumbData tresp2.content (tresp2.ctype.getD "image/jpeg")⟩, st3)
                else (.ok ⟨404, .errorBody "Thumbnail unavailable"⟩, st3)
            | none => (.ok ⟨404, .errorBody "Thumbnail unavailable"⟩, st2)

/-! ## List and character helper lemmas -/

theorem takeWhile_all {α} (p : α → Bool) :
    ∀ (l : List α), (∀ c ∈ l, p c = true) → l.takeWhile p = l := by
  intro l h
  induction l with
  | nil => rfl
  | cons x xs ih =>
    simp only [List.takeWhile_cons, h x (List.mem_cons_self x xs), if_pos]
    exact congrArg (x :: ·) (ih fun c hc => h c (List.mem_cons_of_mem x hc))

theorem dropWhile_all_neg {α} (p : α → Bool) (l : List α)
    (h : ∀ c ∈ l, p c = false) : l.dropWhile p = l := by
  cases l with
  | nil => rfl
  | cons x xs => simp [List.dropWhile_cons, h x (List.mem_cons_self x xs)]

theorem takeWhile_append_not {α} (p : α → Bool) :
    ∀ (a : List α) (y : α) (r : List α), (∀ c ∈ a, p c = true) → p y = false →
      (a ++ y :: r).takeWhile p = a := by
  intro a y r ha hy
  induction a with
  | nil => simp [List.takeWhile_cons, hy]
  | cons x xs ih =>
    simp only [List.cons_append, List.takeWhile_cons,
      ha x (List.mem_cons_self x xs), if_pos]
    exact congrArg (x :: ·) (ih fun c hc => ha c (List.mem_cons_of_mem x hc))

theorem dropWhile_append_not {α} (p : α → Bool) :
    ∀ (a : List α) (y : α) (r : List α), (∀ c ∈ a, p c = true) → p y = false →
      (a ++ y :: r).dropWhile p = y :: r := by
  intro a y r ha hy
  induction a with
  | nil => simp [List.dropWhile_cons, hy]
  | cons x xs ih =>
    simp only [List.cons_append, List.dropWhile_cons,
      ha x (List.mem_cons_self x xs), if_pos]
    exact ih fun c hc => ha c (List.mem_cons_of_mem x hc)

theorem pyStrip_eq_self (l : List Char) (h : ∀ c ∈ l, pySpace c = false) :
    pyStrip l = l := by
  unfold pyStrip
  rw [dropWhile_all_neg pySpace l h,
      dropWhile_all_neg pySpace l.reverse (fun c hc => h c (List.mem_reverse.mp hc)),
      List.reverse_reverse]

theorem charOfNat_toNat (n : Nat) (h : n < 55296) : (Char.ofNat n).toNat = n := by
  unfold Char.ofNat
  rw [dif_pos (Or.inl h)]
  simp [Char.ofNatAux, Char.toNat, UInt32.toNat, UInt32.ofNatCore]

/-! ## C6 machinery: the hyphened-IP regex on well-formed inputs -/

theorem dropPre_turn (s : List Char) :
    dropPre ['t', 'u', 'r', 'n', ':'] (['t', 'u', 'r', 'n', ':'] ++ s) = some s := rfl

theorem dropPre_turns (s : List Char) :
    dropPre ['t', 'u', 'r', 'n', 's', ':'] (['t', 'u', 'r', 'n', 's', ':'] ++ s) = some s := rfl

theorem dropPre_turns_of_turn (s : List Char) :
    dropPre ['t', 'u', 'r', 'n', 's', ':'] (['t', 'u', 'r', 'n', ':'] ++ s) = none := rfl

theorem digitsPart_append (a : List Char) (y : Char) (r : List Char)
    (h0 : a ≠ []) (h1 : ∀ c ∈ a, c.isDigit = true) (hy : y.isDigit = false) :
    digitsPart (a ++ y :: r) = some (a, y :: r) := by
  unfold digitsPart
  rw [takeWhile_append_not Char.isDigit a y r h1 hy,
      dropWhile_append_not Char.isDigit a y r h1 hy, if_neg h0]

theorem expectChar_cons (c : Char) (r : List Char) :
    expectChar c (c :: r) = some r := by
  simp [expectChar]

/-- The regex accepts every string of the shape
`(turn:|turns:) A-B-C-D.t-<colon-free> : rest` (with `rest` free of `\n`)
and rebuilds it with the dotted quad. -/
theorem matchKinesis_pos (schL aL bL cL dL tL rL : List Char)
    (hsch : schL = "turn:".data ∨ schL = "turns:".data)
    (ha0 : aL ≠ []) (ha : ∀ x ∈ aL, x.isDigit = true)
    (hb0 : bL ≠ []) (hb : ∀ x ∈ bL, x.isDigit = true)
    (hc0 : cL ≠ []) (hc : ∀ x ∈ cL, x.isDigit = true)
    (hd0 : dL ≠ []) (hd : ∀ x ∈ dL, x.isDigit = true)
    (ht0 : tL ≠ []) (ht : ∀ x ∈ tL, x ≠ ':')
    (hr : ∀ x ∈ rL, x ≠ '\n') :
    matchKinesis (schL ++ (aL ++ '-' :: (bL ++ '-' :: (cL ++ '-' ::
        (dL ++ '.' :: 't' :: '-' :: (tL ++ ':' :: rL))))))
      = some (schL ++ aL ++ '.' :: bL ++ '.' :: cL ++ '.' :: dL ++ ':' :: rL) := by
  have hcol : (fun ch => decide (ch ≠ ':')) ':' = false := by decide
  have htB : ∀ x ∈ tL, (fun ch => decide (ch ≠ ':')) x = true := by
    intro x hx; simpa using ht x hx
  have htake := takeWhile_append_not (fun ch => decide (ch ≠ ':')) tL ':' rL htB hcol
  have hdrop := dropWhile_append_not (fun ch => decide (ch ≠ ':')) tL ':' rL htB hcol
  have hrB : ∀ x ∈ rL, (fun ch => decide (ch ≠ '\n')) x = true := by
    intro x hx; simpa using hr x hx
  have hrtake := takeWhile_all (fun ch => decide (ch ≠ '\n')) rL hrB
  have d1 := digitsPart_append aL '-'
    (bL ++ '-' :: (cL ++ '-' :: (dL ++ '.' :: 't' :: '-' :: (tL ++ ':' :: rL))))
    ha0 ha (by decide)
  have d2 := digitsPart_append bL '-'
    (cL ++ '-' :: (dL ++ '.' :: 't' :: '-' :: (tL ++ ':' :: rL))) hb0 hb (by decide)
  have d3 := digitsPart_append cL '-'
    (dL ++ '.' :: 't' :: '-' :: (tL ++ ':' :: rL)) hc0 hc (by decide)
  have d4 := digitsPart_append dL '.'
    ('t' :: '-' :: (tL ++ ':' :: rL)) hd0 hd (by decide)
  rcases hsch with rfl | rfl
  · simp only [matchKinesis, dropPre_turns_of_turn, dropPre_turn,
      d1, expectChar_cons, d2, d3, d4, htake, hdrop, hrtake, if_neg ht0]
  · simp only [matchKinesis, dropPre_turns,
      d1, expectChar_cons, d2, d3, d4, htake, hdrop, hrtake, if_neg ht0]

/-- C6 counterexample: `turn:1-2-3-4.example.com:443` has host
`A-B-C-D.<suffix>` with decimal octets 1.2.3.4, yet the normalizer returns
it unchanged (the code additionally requires the first host label after
the octets to start with `t-`), so it is not rewritten to
`turn:1.2.3.4:443` as the claim requires. -/
theorem C6_counterexample :
    rewriteUrl "turn:1-2-3-4.example.com:443" = "turn:1-2-3-4.example.com:443"
    ∧ "turn:1-2-3-4.example.com:443" ≠ "turn:1.2.3.4:443" := by
  exact ⟨rfl, by decide⟩

/-- C6 (amended): the signaling normalizer rewrites exactly the URLs of
the form `(turn:|turns:)A-B-C-D.t-<suffix>:<rest>` where `A`–`D` are
non-empty digit runs (octet range is not checked), the first host label
after them starts with `t-` and is colon-free and non-empty, and a
`:<rest>` part follows (`rest` newline-free); the host is then replaced by
the dotted quad `A.B.C.D`, preserving scheme and the `:<rest>` suffix.
Every URL the pattern does not match is returned unchanged, and a legacy
singular `url` field is renamed to the plural `urls` field (the rewrite
then applying to its value). -/
theorem C6_claim :
    (∀ sch a b c d t r : String,
        (sch = "turn:" ∨ sch = "turns:") →
        a.data ≠ [] → (∀ x ∈ a.data, x.isDigit = true) →
        b.data ≠ [] → (∀ x ∈ b.data, x.isDigit = true) →
        c.data ≠ [] → (∀ x ∈ c.data, x.isDigit = true) →
        d.data ≠ [] → (∀ x ∈ d.data, x.isDigit = true) →
        t.data ≠ [] → (∀ x ∈ t.data, x ≠ ':') →
        (∀ x ∈ r.data, x ≠ '\n') →
        rewriteUrl (sch ++ a ++ "-" ++ b ++ "-" ++ c ++ "-" ++ d ++ ".t-" ++ t ++ ":" ++ r)
          = sch ++ a ++ "." ++ b ++ "." ++ c ++ "." ++ d ++ ":" ++ r)
    ∧ (∀ u : String, matchKinesis u.data = none → rewriteUrl u = u)
    ∧ (∀ (s : SrvDesc) (u : String), s.url = some u →
        normalizeServer s = ⟨none, some (rewriteUrl u)⟩)
    ∧ (∀ s : SrvDesc, s.url = none →
        normalizeServer s = ⟨none, Option.map rewriteUrl s.urls⟩) := by
  refine ⟨?_, ?_, ?_, ?_⟩
  · intro sch a b c d t r hsch ha0 ha hb0 hb hc0 hc hd0 hd ht0 ht hr
    have hdata : (sch ++ a ++ "-" ++ b ++ "-" ++ c ++ "-" ++ d ++ ".t-" ++ t ++ ":" ++ r).data
        = sch.data ++ (a.data ++ '-' :: (b.data ++ '-' :: (c.data ++ '-' ::
            (d.data ++ '.' :: 't' :: '-' :: (t.data ++ ':' :: r.data))))) := by
      simp [String.data_append, List.append_assoc]
    have hm := matchKinesis_pos sch.data a.data b.data c.data d.data t.data r.data
      (hsch.imp (congrArg String.data) (congrArg String.data))
      ha0 ha hb0 hb hc0 hc hd0 hd ht0 ht hr
    unfold rewriteUrl
    rw [hdata, hm]
    apply String.ext
    simp [String.data_append, List.append_assoc]
  · intro u h
    unfold rewriteUrl
    rw [h]
  · intro s u h
    unfold normalizeServer rewriteUrl
    rw [h]
    simp only [Option.getD_some]
    cases hm : matchKinesis u.data <;> simp [hm]
  · rintro ⟨url, urls⟩ h
    subst h
    unfold normalizeServer rewriteUrl
    cases urls with
    | none => rfl
    | some u =>
      simp only [Option.getD_some, Option.map_some]
      cases hm : matchKinesis u.data <;> simp [hm]

/-- C6 witness: the specification's concrete example, obtained from
`C6_claim` at `sch = "turn:"`, `A-B-C-D = 54-201-33-198`,
`t = "xyz.kinesisvideo.example"`, `rest = "443"`. -/
theorem C6_witness :
    rewriteUrl ("turn:" ++ "54" ++ "-" ++ "201" ++ "-" ++ "33" ++ "-" ++ "198"
        ++ ".t-" ++ "xyz.kinesisvideo.example" ++ ":" ++ "443")
      = "turn:" ++ "54" ++ "." ++ "201" ++ "." ++ "33" ++ "." ++ "198" ++ ":" ++ "443" :=
  C6_claim.1 "turn:" "54" "201" "33" "198" "xyz.kinesisvideo.example" "443"
    (Or.inl rfl) (by decide) (by decide) (by decide) (by decide) (by decide)
    (by decide) (by decide) (by decide) (by decide) (by decide) (by decide)

/-! ## C7 machinery: ASCII preservation along the slug pipeline -/

theorem filter_all_eq {α} (p : α → Bool) :
    ∀ (l : List α), (∀ a ∈ l, p a = true) → l.filter p = l := by
  intro l h
  induction l with
  | nil => rfl
  | cons x xs ih =>
    rw [List.filter_cons, if_pos (h x (List.mem_cons_self x xs))]
    exact congrArg (x :: ·) (ih fun a ha => h a (List.mem_cons_of_mem x ha))

theorem mem_dropWhile {α} (p : α → Bool) :
    ∀ (l : List α) (x : α), x ∈ l.dropWhile p → x ∈ l := by
  intro l x h
  induction l with
  | nil => exact absurd h (List.not_mem_nil x)
  | cons a t ih =>
    rw [List.dropWhile_cons] at h
    by_cases hp : p a = true
    · exact List.mem_cons_of_mem a (ih (by simpa [hp] using h))
    · simpa using (by simpa [hp] using h : x ∈ a :: t)

theorem mem_pyStrip (l : List Char) (x : Char) (h : x ∈ pyStrip l) : x ∈ l := by
  unfold pyStrip at h
  rw [List.mem_reverse] at h
  have h2 := mem_dropWhile pySpace _ _ h
  rw [List.mem_reverse] at h2
  exact mem_dropWhile pySpace _ _ h2

theorem pyLower_ascii (c : Char) (h : asciiChar c = true) :
    asciiChar (pyLower c) = true := by
  unfold pyLower
  unfold asciiChar at h ⊢
  by_cases hr : (65 ≤ c.toNat && c.toNat ≤ 90) = true
  · rw [if_pos hr]
    have hb : c.toNat ≤ 90 := by simpa using (Bool.and_elim_right hr)
    have : (Char.ofNat (c.toNat + 32)).toNat = c.toNat + 32 :=
      charOfNat_toNat _ (by omega)
    simp only [this]
    simp only [decide_eq_true_eq]
    omega
  · rw [if_neg hr]
    exact h

/-- On an all-ASCII list, lowercasing then dropping non-ASCII equals
dropping non-ASCII then lowercasing (both filters are the identity). -/
theorem lower_filter_comm (L : List Char) (h : ∀ c ∈ L, asciiChar c = true) :
    (L.map pyLower).filter asciiChar = (L.filter asciiChar).map pyLower := by
  rw [filter_all_eq asciiChar L h,
      filter_all_eq asciiChar (L.map pyLower) (by
        intro a ha
        rcases List.mem_map.mp ha with ⟨c, hc, rfl⟩
        exact pyLower_ascii c (h c hc))]

/-- C7: on ASCII inputs the slug function computed by the source equals
the pipeline as the specification words it, and the specification's
concrete example holds.  (Beyond ASCII, Python's Unicode-aware `\w`,
`str.lower` and `str.strip` would require full Unicode tables; every
theorem about `_name_uri` is therefore stated on the ASCII domain, where
the embedding is exact.) -/
theorem C7_claim :
    (∀ nickname mac : String,
        (∀ c ∈ nickname.data, asciiChar c = true) →
        (∀ c ∈ mac.data, asciiChar c = true) →
        name_uri nickname mac = name_uri_spec nickname mac)
    ∧ name_uri "Front Door!" "AB:12" = "front-door" := by
  constructor
  · intro nickname mac hn hm
    have hname : ∀ c ∈ (if nickname = "" then mac else nickname).data,
        asciiChar c = true := by
      by_cases h0 : nickname = ""
      · simpa [h0] using hm
      · simpa [h0] using hn
    have hsub : ∀ c ∈ ((pyStrip (if nickname = "" then mac else nickname).data).map
          (fun c => if c = ' ' then '-' else c)).filter
          (fun c => c = '-' || pyWordChar c || c = '+'), asciiChar c = true := by
      intro c hc
      have hc2 := (List.mem_filter.mp hc).1
      rcases List.mem_map.mp hc2 with ⟨c0, hc0, rfl⟩
      have hc1 := hname c0 (mem_pyStrip _ _ hc0)
      by_cases hsp : c0 = ' '
      · simp [hsp]
        rfl
      · simpa [hsp] using hc1
    simp only [name_uri, name_uri_spec]
    exact congrArg String.mk (lower_filter_comm _ hsub)
  · decide

/-- C7 witness: `C7_claim` applied at the specification's example input
(all-ASCII), together with the example itself. -/
theorem C7_witness :
    name_uri "Front Door!" "AB:12" = name_uri_spec "Front Door!" "AB:12" :=
  C7_claim.1 "Front Door!" "AB:12" (by decide) (by decide)

/-! ## C8: `_hash_password` -/

/-- C8 counterexample: `"pä"` carries no pre-hashed marker, so the claim
requires three digest rounds over the stripped input; the code instead
raises `UnicodeEncodeError` from `encoded.encode("ascii")` (modelled as
`none`), producing no hash at all. -/
theorem C8_counterexample : hash_password (fun s => s) "pä" = none := by decide

/-- C8 (amended): every input whose stripped, lowercased form carries a
recognized pre-hashed marker — `hashed:` or, failing that, `md5:`,
whatever the case or surrounding whitespace of the input — yields the
marked value verbatim (the stripped input minus the marker, original
case preserved); every raw input consisting of ASCII characters is
stripped and hashed with exactly three iterated digest rounds
(determinism is inherent: the embedding is a function of the input
alone); and every raw input containing a non-ASCII character instead
raises an encoding error, producing no hash. -/
theorem C8_claim :
    (∀ (md5hex : String → String) (password : String) (rest : List Char),
        dropPre "hashed:".data ((pyStrip password.data).map pyLower) = some rest →
        hash_password md5hex password
          = some (String.mk ((pyStrip password.data).drop 7)))
    ∧ (∀ (md5hex : String → String) (password : String) (rest : List Char),
        dropPre "hashed:".data ((pyStrip password.data).map pyLower) = none →
        dropPre "md5:".data ((pyStrip password.data).map pyLower) = some rest →
        hash_password md5hex password
          = some (String.mk ((pyStrip password.data).drop 4)))
    ∧ (∀ (md5hex : String → String) (password : String),
        dropPre "hashed:".data ((pyStrip password.data).map pyLower) = none →
        dropPre "md5:".data ((pyStrip password.data).map pyLower) = none →
        (pyStrip password.data).all asciiChar = true →
        hash_password md5hex password
          = some (md5hex (md5hex (md5hex (String.mk (pyStrip password.data))))))
    ∧ (∀ (md5hex : String → String) (password : String),
        dropPre "hashed:".data ((pyStrip password.data).map pyLower) = none →
        dropPre "md5:".data ((pyStrip password.data).map pyLower) = none →
        (pyStrip password.data).all asciiChar = false →
        hash_password md5hex password = none) := by
  refine ⟨?_, ?_, ?_, ?_⟩
  · intro md5hex password rest h
    simp [hash_password, h]
  · intro md5hex password rest h1 h2
    simp [hash_password, h1, h2]
  · intro md5hex password h1 h2 h3
    simp [hash_password, h1, h2, h3]
  · intro md5hex password h1 h2 h3
    simp [hash_password, h1, h2, h3]

/-- C8 witness: `C8_claim` at concrete inputs covering the
specification's example, a case-variant and whitespace-padded `hashed:`
input, an `md5:` input, and a non-ASCII raw input (the identity standing
in for the digest, which none of these branches invokes). -/
theorem C8_witness :
    hash_password (fun s => s) "hashed:abc" = some "abc"
    ∧ hash_password (fun s => s) " HASHED:AbC " = some "AbC"
    ∧ hash_password (fun s => s) "  md5:XyZ " = some "XyZ"
    ∧ hash_password (fun s => s) "päss" = none :=
  ⟨C8_claim.1 (fun s => s) "hashed:abc" "abc".data (by decide),
   C8_claim.1 (fun s => s) " HASHED:AbC " "abc".data (by decide),
   C8_claim.2.1 (fun s => s) "  md5:XyZ " "xyz".data (by decide) (by decide),
   C8_claim.2.2.2 (fun s => s) "päss" (by decide) (by decide) (by decide)⟩

/-! ## C2: `_load_tokens` -/

/-- C2 counterexample: on a present-but-unparseable token file the load
operation does not return absent — `json.loads` raises and nothing
catches it, so the error propagates instead of forcing re-login. -/
theorem C2_counterexample : load_tokens .corrupt none = .error .jsonError := rfl

/-- C2 (amended): a missing token file loads as absent (returns `False`,
leaving `_creds` untouched) without error, and a parseable file loads its
credential; but an unparseable file raises the JSON decode error rather
than being treated as absence. -/
theorem C2_claim :
    ∀ (creds : Option Creds) (c : Creds),
      load_tokens .missing creds = .ok (false, creds)
      ∧ load_tokens (.stored c) creds = .ok (true, some c)
      ∧ load_tokens .corrupt creds = .error .jsonError :=
  fun _ _ => ⟨rfl, rfl, rfl⟩

/-! ## Session-protocol lemmas -/

/-- The credential mutation performed by `_refresh_token` on a successful
refresh response: replace the token pair, retaining each previous value
when the response omits the field; every other field is untouched. -/
def refreshedCreds (c : Creds) (r : VResp) : Creds :=
  { c with
    access_token := r.access_token.getD c.access_token,
    refresh_token := r.refresh_token.getD c.refresh_token }

/-- A success-code response is returned as the payload, without touching
state. -/
theorem validate_ok (fuel : Nat) (env : Env) (st : St) (r : VResp)
    (h : r.code = "1" ∨ r.code = "0") :
    validate (fuel + 1) env st r = (.ok r, st) := by
  have h2001 : ¬ r.code = "2001" := by rcases h with h | h <;> simp [h]
  simp only [validate, if_neg h2001, if_pos h]

/-- A "2001" response triggers one refresh round trip; when the refresh
response succeeds, the token pair is replaced and persisted and the
`TokenRefreshed` exception is raised. -/
theorem validate_2001_ok (fuel : Nat) (env : Env) (st : St) (r rr : VResp)
    (c : Creds) (h : r.code = "2001") (hc : st.creds = some c)
    (hrr : env st.calls.length = rr) (hrrr : rr.raises = false)
    (hrrc : rr.code = "1" ∨ rr.code = "0") :
    validate (fuel + 1 + 1) env st r =
      (.error .tokenRefreshed,
       { st with creds := some (refreshedCreds c rr),
                 tokenFile := .stored (refreshedCreds c rr),
                 calls := st.calls ++ [⟨.refreshTok, some c.access_token⟩] }) := by
  rw [validate]
  rw [if_pos h, hc]
  simp only [issue, hrr, hrrr, Bool.false_eq_true, if_false,
    validate_ok fuel env _ rr hrrc, hc, refreshedCreds]

/-- `st'` extends `st` by appending only requests whose kind satisfies
`ks`, leaving the camera cache and its timestamp untouched. -/
def StExt (ks : CallKind → Prop) (st st' : St) : Prop :=
  st'.cameras = st.cameras ∧ st'.cameras_ts = st.cameras_ts ∧
  ∃ ex, st'.calls = st.calls ++ ex ∧ ∀ a ∈ ex, ks a.kind

theorem StExt.rfl (ks : CallKind → Prop) (st : St) : StExt ks st st :=
  ⟨Eq.refl _, Eq.refl _, [], by simp, by simp⟩

theorem StExt.trans {ks : CallKind → Prop} {st1 st2 st3 : St}
    (h1 : StExt ks st1 st2) (h2 : StExt ks st2 st3) : StExt ks st1 st3 := by
  obtain ⟨hc1, ht1, ex1, he1, hk1⟩ := h1
  obtain ⟨hc2, ht2, ex2, he2, hk2⟩ := h2
  refine ⟨hc2.trans hc1, ht2.trans ht1, ex1 ++ ex2, ?_, ?_⟩
  · rw [he2, he1, List.append_assoc]
  · intro a ha
    rcases List.mem_append.mp ha with h | h
    · exact hk1 a h
    · exact hk2 a h

theorem StExt.mono {ks ks' : CallKind → Prop} {st st' : St}
    (h : ∀ k, ks k → ks' k) (he : StExt ks st st') : StExt ks' st st' := by
  obtain ⟨hc, ht, ex, hex, hk⟩ := he
  exact ⟨hc, ht, ex, hex, fun a ha => h _ (hk a ha)⟩

theorem StExt_calls {ks : CallKind → Prop} {st : St} (k : CallKind)
    (tok : Option String) (hk : ks k) :
    StExt ks st { st with calls := st.calls ++ [⟨k, tok⟩] } :=
  ⟨Eq.refl _, Eq.refl _, [⟨k, tok⟩], by simp, by simpa using hk⟩

theorem StExt_creds {ks : CallKind → Prop} {st st2 : St} (x : Option Creds)
    (y : FileState) (h : StExt ks st st2) :
    StExt ks st { st2 with creds := x, tokenFile := y } := by
  obtain ⟨hc, ht, ex, hex, hk⟩ := h
  exact ⟨hc, ht, ex, hex, hk⟩

/-- `_validate` (and the `_refresh_token` it may perform) never touches
the camera cache, and every request it issues is a refresh request. -/
theorem validate_inv (fuel : Nat) :
    ∀ (env : Env) (st : St) (r : VResp),
      StExt (· = CallKind.refreshTok) st (validate fuel env st r).2 := by
  induction fuel with
  | zero => intro env st r; exact StExt.rfl _ _
  | succ fuel ih =>
    intro env st r
    rw [validate]
    by_cases h2001 : r.code = "2001"
    · rw [if_pos h2001]
      cases hc : st.creds with
      | none => exact StExt.rfl _ _
      | some c =>
        simp only [issue]
        cases hr : (env st.calls.length).raises with
        | true =>
          simp only [if_pos rfl]
          exact StExt_calls _ _ (by simp)
        | false =>
          simp only [Bool.false_eq_true, if_false]
          have hstep : StExt (· = CallKind.refreshTok) st
              { st with calls := st.calls ++ [⟨.refreshTok, some c.access_token⟩] } :=
            StExt_calls _ _ (by simp)
          rcases hv : validate fuel env
              { st with calls := st.calls ++ [⟨.refreshTok, some c.access_token⟩] }
              (env st.calls.length) with ⟨res, st2⟩
          have hIH := ih env
            { st with calls := st.calls ++ [⟨.refreshTok, some c.access_token⟩] }
            (env st.calls.length)
          rw [hv] at hIH
          have hcomb := StExt.trans hstep hIH
          cases res with
          | error e => simpa [hv] using hcomb
          | ok d =>
            simp only [hv]
            cases hc2 : st2.creds with
            | none => exact hcomb
            | some c2 => exact StExt_creds _ _ hcomb
    · rw [if_neg h2001]
      by_cases hok : r.code = "1" ∨ r.code = "0"
      · rw [if_pos hok]; exact StExt.rfl _ _
      · rw [if_neg hok]; exact StExt.rfl _ _

/-- One signed attempt never touches the camera cache, and every request
it issues is to `k` or to the refresh endpoint. -/
theorem signed_once_inv (k : CallKind) (fuel : Nat) (env : Env) (st : St) :
    StExt (fun x => x = k ∨ x = CallKind.refreshTok) st
      (signed_once k fuel env st).2 := by
  rw [signed_once]
  cases hc : st.creds with
  | none => exact StExt.rfl _ _
  | some c =>
    simp only [issue]
    cases hr : (env st.calls.length).raises with
    | true =>
      simp only [if_pos rfl]
      exact StExt_calls _ _ (Or.inl rfl)
    | false =>
      simp only [Bool.false_eq_true, if_false]
      exact StExt.trans (StExt_calls _ _ (Or.inl rfl))
        ((validate_inv fuel env _ _).mono (fun x hx => Or.inr hx))

/-- A `signed_call` to endpoint `k` never touches the camera cache, and
every request it issues is to `k` or to the refresh endpoint. -/
theorem signed_call_inv (k : CallKind) (fuel : Nat) (env : Env) (st : St) :
    StExt (fun x => x = k ∨ x = CallKind.refreshTok) st
      (signed_call k fuel env st).2 := by
  rw [signed_call]
  rcases h1 : signed_once k fuel env st with ⟨res, st2⟩
  have hi1 := signed_once_inv k fuel env st
  rw [h1] at hi1
  cases res with
  | ok d => exact hi1
  | error e =>
    cases e with
    | tokenRefreshed =>
      have hi2 := signed_once_inv k fuel env st2
      exact StExt.trans hi1 hi2
    | wyzeApi code msg => exact hi1
    | netError => exact hi1
    | jsonError => exact hi1
    | noCreds => exact hi1
    | outOfFuel => exact hi1

/-- A single signed attempt whose response has a success code returns the
payload and records exactly one request, carrying the current access
token. -/
theorem signed_once_ok (k : CallKind) (fuel : Nat) (env : Env) (st : St)
    (c : Creds) (r0 : VResp) (hc : st.creds = some c)
    (h0 : env st.calls.length = r0) (h0r : r0.raises = false)
    (h0c : r0.code = "1" ∨ r0.code = "0") :
    signed_once k (fuel + 1) env st =
      (.ok r0, { st with calls := st.calls ++ [⟨k, some c.access_token⟩] }) := by
  rw [signed_once, hc]
  simp only [issue, h0, h0r, Bool.false_eq_true, if_false]
  rw [validate_ok fuel env _ r0 h0c]
  simp [hc]

/-- A single signed attempt whose response reports "2001" performs one
refresh round trip (here: a successful one), replaces and persists the
token pair, and raises `TokenRefreshed`. -/
theorem signed_once_2001 (k : CallKind) (fuel : Nat) (env : Env) (st : St)
    (c : Creds) (r0 r1 : VResp) (hc : st.creds = some c)
    (h0 : env st.calls.length = r0) (h0r : r0.raises = false)
    (h0c : r0.code = "2001")
    (h1 : env (st.calls.length + 1) = r1) (h1r : r1.raises = false)
    (h1c : r1.code = "1" ∨ r1.code = "0") :
    signed_once k (fuel + 1 + 1) env st =
      (.error .tokenRefreshed,
       { st with
          creds := some (refreshedCreds c r1),
          tokenFile := .stored (refreshedCreds c r1),
          calls := st.calls ++ [⟨k, some c.access_token⟩,
                                ⟨.refreshTok, some c.access_token⟩] }) := by
  rw [signed_once, hc]
  simp only [issue, h0, h0r, Bool.false_eq_true, if_false]
  rw [validate_2001_ok fuel env _ r0 r1 c h0c (by simp [hc])
    (by simpa using h1) h1r h1c]
  simp

/-- `signed_call`, plain success path: exactly one request. -/
theorem signed_call_plain_ok (k : CallKind) (fuel : Nat) (env : Env) (st : St)
    (c : Creds) (r0 : VResp) (hc : st.creds = some c)
    (h0 : env st.calls.length = r0) (h0r : r0.raises = false)
    (h0c : r0.code = "1" ∨ r0.code = "0") :
    signed_call k (fuel + 1) env st =
      (.ok r0, { st with calls := st.calls ++ [⟨k, some c.access_token⟩] }) := by
  rw [signed_call, signed_once_ok k fuel env st c r0 hc h0 h0r h0c]

/-- `signed_call`, expiry-then-success path: the "2001" response triggers
exactly one refresh round trip and exactly one re-issue of the original
request, carrying the refreshed access token. -/
theorem signed_call_retry_ok (k : CallKind) (fuel : Nat) (env : Env) (st : St)
    (c : Creds) (r0 r1 r2 : VResp) (hc : st.creds = some c)
    (h0 : env st.calls.length = r0) (h0r : r0.raises = false)
    (h0c : r0.code = "2001")
    (h1 : env (st.calls.length + 1) = r1) (h1r : r1.raises = false)
    (h1c : r1.code = "1" ∨ r1.code = "0")
    (h2 : env (st.calls.length + 1 + 1) = r2) (h2r : r2.raises = false)
    (h2c : r2.code = "1" ∨ r2.code = "0") :
    signed_call k (fuel + 1 + 1) env st =
      (.ok r2,
       { st with
          creds := some (refreshedCreds c r1),
          tokenFile := .stored (refreshedCreds c r1),
          calls := st.calls ++
            [⟨k, some c.access_token⟩,
             ⟨.refreshTok, some c.access_token⟩,
             ⟨k, some (refreshedCreds c r1).access_token⟩] }) := by
  rw [signed_call,
    signed_once_2001 k fuel env st c r0 r1 hc h0 h0r h0c h1 h1r h1c]
  have := signed_once_ok k (fuel + 1) env
    { st with
       creds := some (refreshedCreds c r1),
       tokenFile := .stored (refreshedCreds c r1),
       calls := st.calls ++ [⟨k, some c.access_token⟩,
                             ⟨.refreshTok, some c.access_token⟩] }
    (refreshedCreds c r1) r2 rfl (by simpa using h2) h2r h2c
  dsimp only
  rw [this]
  simp

/-- `signed_call`, expiry-then-expiry path: the retried request's "2001"
response triggers a second refresh round trip, after which the
`TokenRefreshed` exception propagates — four requests in total, no third
issue of the original request. -/
theorem signed_call_retry_expired (k : CallKind) (fuel : Nat) (env : Env)
    (st : St) (c : Creds) (r0 r1 r2 r3 : VResp) (hc : st.creds = some c)
    (h0 : env st.calls.length = r0) (h0r : r0.raises = false)
    (h0c : r0.code = "2001")
    (h1 : env (st.calls.length + 1) = r1) (h1r : r1.raises = false)
    (h1c : r1.code = "1" ∨ r1.code = "0")
    (h2 : env (st.calls.length + 1 + 1) = r2) (h2r : r2.raises = false)
    (h2c : r2.code = "2001")
    (h3 : env (st.calls.length + 1 + 1 + 1) = r3) (h3r : r3.raises = false)
    (h3c : r3.code = "1" ∨ r3.code = "0") :
    signed_call k (fuel + 1 + 1) env st =
      (.error .tokenRefreshed,
       { st with
          creds := some (refreshedCreds (refreshedCreds c r1) r3),
          tokenFile := .stored (refreshedCreds (refreshedCreds c r1) r3),
          calls := st.calls ++
            [⟨k, some c.access_token⟩,
             ⟨.refreshTok, some c.access_token⟩,
             ⟨k, some (refreshedCreds c r1).access_token⟩,
             ⟨.refreshTok, some (refreshedCreds c r1).access_token⟩] }) := by
  rw [signed_call,
    signed_once_2001 k fuel env st c r0 r1 hc h0 h0r h0c h1 h1r h1c]
  have := signed_once_2001 k fuel env
    { st with
       creds := some (refreshedCreds c r1),
       tokenFile := .stored (refreshedCreds c r1),
       calls := st.calls ++ [⟨k, some c.access_token⟩,
                             ⟨.refreshTok, some c.access_token⟩] }
    (refreshedCreds c r1) r2 r3 rfl (by simpa using h2) h2r h2c
    (by simpa using h3) h3r h3c
  dsimp only
  rw [this]
  simp

/-! ## Concrete fixtures for witnesses and counterexamples -/

def exCreds : Creds := ⟨"tok0", "ref0", "phone0", [("user_id", "u1")]⟩

def exRaw : RawDevice :=
  ⟨some "Camera", some "MAC1", some "WYZEC1", some "Front Door",
   some ⟨some "10.0.0.5", some "http://thumb.example/x.jpg"⟩, some "4.9.9", some 1⟩

def exCamera : Camera :=
  ⟨"MAC1", "Front Door", "front-door", "WYZEC1", "V1", some "4.9.9",
   some "10.0.0.5", some "http://thumb.example/x.jpg", false, false, true⟩

def respList : VResp := { VResp.dflt with code := "1", device_list := [exRaw] }

def respExpired : VResp := { VResp.dflt with code := "2001" }

def respTokens1 : VResp :=
  { VResp.dflt with code := "1", access_token := some "tok1", refresh_token := some "ref1" }

def respTokens2 : VResp :=
  { VResp.dflt with code := "1", access_token := some "tok2", refresh_token := some "ref2" }

def respErr : VResp := { VResp.dflt with code := "5000", msg := "boom" }

def respRef : VResp := { VResp.dflt with code := "1", access_token := some "tokN" }

/-- Oracle scripting a single successful device-listing response. -/
def envList : Env := fun n => [respList].getD n VResp.dflt

/-- Oracle scripting expiry, successful refresh, expiry again, successful
refresh (the double-expiry scenario). -/
def envDouble : Env := fun n =>
  [respExpired, respTokens1, respExpired, respTokens2].getD n VResp.dflt

/-- Oracle scripting expiry, successful refresh, success. -/
def envRetry : Env := fun n => [respExpired, respTokens1, respList].getD n VResp.dflt

/-- Oracle scripting a hard vendor error. -/
def envErr : Env := fun n => [respErr].getD n VResp.dflt

/-- Oracle scripting one successful refresh response. -/
def envRef : Env := fun n => [respRef].getD n VResp.dflt

/-- Authenticated state, empty cache, empty trace. -/
def stInit : St := ⟨some exCreds, .missing, [], 0, []⟩

/-- Authenticated state with a populated cache fetched at t = 100. -/
def stCached : St := ⟨some exCreds, .missing, [exCamera], 100, []⟩

/-! ## C1: refresh-retry protocol -/

/-- The state after an expiry/refresh/success round on endpoint `k`: the
original request (old token), one refresh request, the re-issued request
(refreshed token); the refreshed credential pair is active and
persisted. -/
def retrySt (k : CallKind) (st : St) (c : Creds) (r1 : VResp) : St :=
  { st with
     creds := some (refreshedCreds c r1),
     tokenFile := .stored (refreshedCreds c r1),
     calls := st.calls ++
       [⟨k, some c.access_token⟩,
        ⟨.refreshTok, some c.access_token⟩,
        ⟨k, some (refreshedCreds c r1).access_token⟩] }

/-- The state after an expiry/refresh/expiry/refresh round on endpoint
`k`: two original-request issues and two refresh requests. -/
def doubleSt (k : CallKind) (st : St) (c : Creds) (r1 r3 : VResp) : St :=
  { st with
     creds := some (refreshedCreds (refreshedCreds c r1) r3),
     tokenFile := .stored (refreshedCreds (refreshedCreds c r1) r3),
     calls := st.calls ++
       [⟨k, some c.access_token⟩,
        ⟨.refreshTok, some c.access_token⟩,
        ⟨k, some (refreshedCreds c r1).access_token⟩,
        ⟨.refreshTok, some (refreshedCreds c r1).access_token⟩] }

/-- C1 counterexample: with the vendor answering "2001" to the original
`run_action` call, refreshing successfully, and answering "2001" again to
the retried call, the error does propagate and there is no third issue of
the original call — but the client performs TWO token-refresh round trips
(one per "2001" response), not "exactly one refresh call in total" as the
claim states. -/
theorem C1_counterexample :
    (run_action 9 envDouble "MAC1" "WYZEC1" "restart" stInit).1
        = .error .tokenRefreshed
    ∧ ((run_action 9 envDouble "MAC1" "WYZEC1" "restart" stInit).2.calls.filter
        (fun a => a.kind == CallKind.refreshTok)).length = 2
    ∧ ((run_action 9 envDouble "MAC1" "WYZEC1" "restart" stInit).2.calls.filter
        (fun a => a.kind == CallKind.runAction)).length = 2 := by decide

/-- C1 (amended): for every authenticated vendor call (device listing,
`run_action`, `set_property`, `get_device_info`, signaling), a "2001"
expiry response triggers exactly one token-refresh round trip and exactly
one re-issue of the original call carrying the refreshed token; if the
retried call also returns the expiry sentinel, a second refresh round
trip is performed and the `TokenRefreshed` error then propagates to the
caller with no third issue of the original call — two refresh calls in
total in that case. -/
theorem C1_claim :
    (∀ (fuel : Nat) (env : Env) (mac model action : String) (st : St)
        (c : Creds) (r0 r1 r2 : VResp),
      st.creds = some c →
      env st.calls.length = r0 → r0.raises = false → r0.code = "2001" →
      env (st.calls.length + 1) = r1 → r1.raises = false →
      (r1.code = "1" ∨ r1.code = "0") →
      env (st.calls.length + 1 + 1) = r2 → r2.raises = false →
      (r2.code = "1" ∨ r2.code = "0") →
      run_action (fuel + 1 + 1) env mac model action st
        = (.ok r2, retrySt .runAction st c r1))
    ∧ (∀ (fuel : Nat) (env : Env) (mac model action : String) (st : St)
        (c : Creds) (r0 r1 r2 r3 : VResp),
      st.creds = some c →
      env st.calls.length = r0 → r0.raises = false → r0.code = "2001" →
      env (st.calls.length + 1) = r1 → r1.raises = false →
      (r1.code = "1" ∨ r1.code = "0") →
      env (st.calls.length + 1 + 1) = r2 → r2.raises = false →
      r2.code = "2001" →
      env (st.calls.length + 1 + 1 + 1) = r3 → r3.raises = false →
      (r3.code = "1" ∨ r3.code = "0") →
      run_action (fuel + 1 + 1) env mac model action st
        = (.error .tokenRefreshed, doubleSt .runAction st c r1 r3))
    ∧ (∀ (fuel : Nat) (env : Env) (mac model pid pvalue : String) (st : St)
        (c : Creds) (r0 r1 r2 : VResp),
      st.creds = some c →
      env st.calls.length = r0 → r0.raises = false → r0.code = "2001" →
      env (st.calls.length + 1) = r1 → r1.raises = false →
      (r1.code = "1" ∨ r1.code = "0") →
      env (st.calls.length + 1 + 1) = r2 → r2.raises = false →
      (r2.code = "1" ∨ r2.code = "0") →
      set_property (fuel + 1 + 1) env mac model pid pvalue st
        = (.ok r2, retrySt .setProperty st c r1))
    ∧ (∀ (fuel : Nat) (env : Env) (mac model pid pvalue : String) (st : St)
        (c : Creds) (r0 r1 r2 r3 : VResp),
      st.creds = some c →
      env st.calls.length = r0 → r0.raises = false → r0.code = "2001" →
      env (st.calls.length + 1) = r1 → r1.raises = false →
      (r1.code = "1" ∨ r1.code = "0") →
      env (st.calls.length + 1 + 1) = r2 → r2.raises = false →
      r2.code = "2001" →
      env (st.calls.length + 1 + 1 + 1) = r3 → r3.raises = false →
      (r3.code = "1" ∨ r3.code = "0") →
      set_property (fuel + 1 + 1) env mac model pid pvalue st
        = (.error .tokenRefreshed, doubleSt .setProperty st c r1 r3))
    ∧ (∀ (fuel : Nat) (env : Env) (mac model : String) (st : St)
        (c : Creds) (r0 r1 r2 : VResp),
      st.creds = some c →
      env st.calls.length = r0 → r0.raises = false → r0.code = "2001" →
      env (st.calls.length + 1) = r1 → r1.raises = false →
      (r1.code = "1" ∨ r1.code = "0") →
      env (st.calls.length + 1 + 1) = r2 → r2.raises = false →
      (r2.code = "1" ∨ r2.code = "0") →
      get_device_info (fuel + 1 + 1) env mac model st
        = (.ok r2, retrySt .getDeviceInfo st c r1))
    ∧ (∀ (fuel : Nat) (env : Env) (mac model : String) (st : St)
        (c : Creds) (r0 r1 r2 r3 : VResp),
      st.creds = some c →
      env st.calls.length = r0 → r0.raises = false → r0.code = "2001" →
      env (st.calls.length + 1) = r1 → r1.raises = false →
      (r1.code = "1" ∨ r1.code = "0") →
      env (st.calls.length + 1 + 1) = r2 → r2.raises = false →
      r2.code = "2001" →
      env (st.calls.length + 1 + 1 + 1) = r3 → r3.raises = false →
      (r3.code = "1" ∨ r3.code = "0") →
      get_device_info (fuel + 1 + 1) env mac model st
        = (.error .tokenRefreshed, doubleSt .getDeviceInfo st c r1 r3))
    ∧ (∀ (unquote : String → String) (fuel : Nat) (env : Env) (mac : String)
        (st : St) (c : Creds) (r0 r1 r2 : VResp),
      st.creds = some c →
      env st.calls.length = r0 → r0.raises = false → r0.code = "2001" →
      env (st.calls.length + 1) = r1 → r1.raises = false →
      (r1.code = "1" ∨ r1.code = "0") →
      env (st.calls.length + 1 + 1) = r2 → r2.raises = false →
      (r2.code = "1" ∨ r2.code = "0") →
      get_webrtc_signaling unquote (fuel + 1 + 1) env mac st
        = (.ok ⟨c.phone_id, unquote r2.signalingUrl,
               r2.servers.map normalizeServer⟩,
           retrySt .signaling st c r1))
    ∧ (∀ (unquote : String → String) (fuel : Nat) (env : Env) (mac : String)
        (st : St) (c : Creds) (r0 r1 r2 r3 : VResp),
      st.creds = some c →
      env st.calls.length = r0 → r0.raises = false → r0.code = "2001" →
      env (st.calls.length + 1) = r1 → r1.raises = false →
      (r1.code = "1" ∨ r1.code = "0") →
      env (st.calls.length + 1 + 1) = r2 → r2.raises = false →
      r2.code = "2001" →
      env (st.calls.length + 1 + 1 + 1) = r3 → r3.raises = false →
      (r3.code = "1" ∨ r3.code = "0") →
      get_webrtc_signaling unquote (fuel + 1 + 1) env mac st
        = (.error .tokenRefreshed, doubleSt .signaling st c r1 r3))
    ∧ (∀ (fuel : Nat) (env : Env) (now : Int) (st : St)
        (c : Creds) (r0 r1 r2 : VResp),
      st.creds = some c →
      (st.cameras = [] ∨ CACHE_TTL ≤ now - st.cameras_ts) →
      env st.calls.length = r0 → r0.raises = false → r0.code = "2001" →
      env (st.calls.length + 1) = r1 → r1.raises = false →
      (r1.code = "1" ∨ r1.code = "0") →
      env (st.calls.length + 1 + 1) = r2 → r2.raises = false →
      (r2.code = "1" ∨ r2.code = "0") →
      fetch_cameras (fuel + 1 + 1) env now st
        = (.ok (normalize_list r2.device_list),
           { retrySt .listing st c r1 with
              cameras := normalize_list r2.device_list, cameras_ts := now }))
    ∧ (∀ (fuel : Nat) (env : Env) (now : Int) (st : St)
        (c : Creds) (r0 r1 r2 r3 : VResp),
      st.creds = some c →
      (st.cameras = [] ∨ CACHE_TTL ≤ now - st.cameras_ts) →
      env st.calls.length = r0 → r0.raises = false → r0.code = "2001" →
      env (st.calls.length + 1) = r1 → r1.raises = false →
      (r1.code = "1" ∨ r1.code = "0") →
      env (st.calls.length + 1 + 1) = r2 → r2.raises = false →
      r2.code = "2001" →
      env (st.calls.length + 1 + 1 + 1) = r3 → r3.raises = false →
      (r3.code = "1" ∨ r3.code = "0") →
      fetch_cameras (fuel + 1 + 1) env now st
        = (.error .tokenRefreshed, doubleSt .listing st c r1 r3)) := by
  have staleCond : ∀ (st : St) (now : Int),
      (st.cameras = [] ∨ CACHE_TTL ≤ now - st.cameras_ts) →
      ¬(st.cameras ≠ [] ∧ now - st.cameras_ts < CACHE_TTL) := by
    intro st now h hx
    rcases h with h | h
    · exact hx.1 h
    · exact absurd hx.2 (not_lt.mpr h)
  refine ⟨?_, ?_, ?_, ?_, ?_, ?_, ?_, ?_, ?_, ?_⟩
  · intro fuel env mac model action st c r0 r1 r2 hc h0 h0r h0c h1 h1r h1c h2 h2r h2c
    exact signed_call_retry_ok .runAction fuel env st c r0 r1 r2
      hc h0 h0r h0c h1 h1r h1c h2 h2r h2c
  · intro fuel env mac model action st c r0 r1 r2 r3 hc h0 h0r h0c h1 h1r h1c
      h2 h2r h2c h3 h3r h3c
    exact signed_call_retry_expired .runAction fuel env st c r0 r1 r2 r3
      hc h0 h0r h0c h1 h1r h1c h2 h2r h2c h3 h3r h3c
  · intro fuel env mac model pid pvalue st c r0 r1 r2 hc h0 h0r h0c h1 h1r h1c h2 h2r h2c
    exact signed_call_retry_ok .setProperty fuel env st c r0 r1 r2
      hc h0 h0r h0c h1 h1r h1c h2 h2r h2c
  · intro fuel env mac model pid pvalue st c r0 r1 r2 r3 hc h0 h0r h0c h1 h1r h1c
      h2 h2r h2c h3 h3r h3c
    exact signed_call_retry_expired .setProperty fuel env st c r0 r1 r2 r3
      hc h0 h0r h0c h1 h1r h1c h2 h2r h2c h3 h3r h3c
  · intro fuel env mac model st c r0 r1 r2 hc h0 h0r h0c h1 h1r h1c h2 h2r h2c
    exact signed_call_retry_ok .getDeviceInfo fuel env st c r0 r1 r2
      hc h0 h0r h0c h1 h1r h1c h2 h2r h2c
  · intro fuel env mac model st c r0 r1 r2 r3 hc h0 h0r h0c h1 h1r h1c
      h2 h2r h2c h3 h3r h3c
    exact signed_call_retry_expired .getDeviceInfo fuel env st c r0 r1 r2 r3
      hc h0 h0r h0c h1 h1r h1c h2 h2r h2c h3 h3r h3c
  · intro unquote fuel env mac st c r0 r1 r2 hc h0 h0r h0c h1 h1r h1c h2 h2r h2c
    have h := signed_call_retry_ok .signaling fuel env st c r0 r1 r2
      hc h0 h0r h0c h1 h1r h1c h2 h2r h2c
    rw [get_webrtc_signaling, h]
    rfl
  · intro unquote fuel env mac st c r0 r1 r2 r3 hc h0 h0r h0c h1 h1r h1c
      h2 h2r h2c h3 h3r h3c
    have h := signed_call_retry_expired .signaling fuel env st c r0 r1 r2 r3
      hc h0 h0r h0c h1 h1r h1c h2 h2r h2c h3 h3r h3c
    rw [get_webrtc_signaling, h]
    rfl
  · intro fuel env now st c r0 r1 r2 hc hstale h0 h0r h0c h1 h1r h1c h2 h2r h2c
    have h := signed_call_retry_ok .listing fuel env st c r0 r1 r2
      hc h0 h0r h0c h1 h1r h1c h2 h2r h2c
    rw [fetch_cameras, hc]
    rw [if_neg (staleCond st now hstale), h]
    rfl
  · intro fuel env now st c r0 r1 r2 r3 hc hstale h0 h0r h0c h1 h1r h1c
      h2 h2r h2c h3 h3r h3c
    have h := signed_call_retry_expired .listing fuel env st c r0 r1 r2 r3
      hc h0 h0r h0c h1 h1r h1c h2 h2r h2c h3 h3r h3c
    rw [fetch_cameras, hc]
    rw [if_neg (staleCond st now hstale), h]
    rfl

/-- C1 witness: the expiry/refresh/success scenario run concretely via
`C1_claim`: the original call with `tok0`, one refresh, one retried call
with the refreshed token `tok1`. -/
theorem C1_witness :
    run_action 9 envRetry "MAC1" "WYZEC1" "restart" stInit
      = (.ok respList, retrySt .runAction stInit exCreds respTokens1) :=
  C1_claim.1 7 envRetry "MAC1" "WYZEC1" "restart" stInit exCreds
    respExpired respTokens1 respList rfl rfl rfl rfl rfl rfl (Or.inl rfl)
    rfl rfl (Or.inl rfl)

/-! ## C3: cache TTL discipline -/

/-- C3: with credentials present, a `fetch_cameras` call finding a
non-empty cache younger than the 120-second TTL returns the cached
sequence with the state (trace included) completely unchanged; a call on
an empty or expired cache issues exactly one device-listing request (plus
the refresh-retry round when the listing response reports expiry),
replaces the cache wholesale with the normalized response, and sets the
fetch timestamp to the current time. -/
theorem C3_claim :
    (∀ (fuel : Nat) (env : Env) (now : Int) (st : St) (c : Creds),
      st.creds = some c → st.cameras ≠ [] → now - st.cameras_ts < CACHE_TTL →
      fetch_cameras fuel env now st = (.ok st.cameras, st))
    ∧ (∀ (fuel : Nat) (env : Env) (now : Int) (st : St) (c : Creds) (r0 : VResp),
      st.creds = some c →
      (st.cameras = [] ∨ CACHE_TTL ≤ now - st.cameras_ts) →
      env st.calls.length = r0 → r0.raises = false →
      (r0.code = "1" ∨ r0.code = "0") →
      fetch_cameras (fuel + 1) env now st
        = (.ok (normalize_list r0.device_list),
           { st with
              cameras := normalize_list r0.device_list, cameras_ts := now,
              calls := st.calls ++ [⟨.listing, some c.access_token⟩] }))
    ∧ (∀ (fuel : Nat) (env : Env) (now : Int) (st : St) (c : Creds) (r0 r1 r2 : VResp),
      st.creds = some c →
      (st.cameras = [] ∨ CACHE_TTL ≤ now - st.cameras_ts) →
      env st.calls.length = r0 → r0.raises = false → r0.code = "2001" →
      env (st.calls.length + 1) = r1 → r1.raises = false →
      (r1.code = "1" ∨ r1.code = "0") →
      env (st.calls.length + 1 + 1) = r2 → r2.raises = false →
      (r2.code = "1" ∨ r2.code = "0") →
      fetch_cameras (fuel + 1 + 1) env now st
        = (.ok (normalize_list r2.device_list),
           { retrySt .listing st c r1 with
              cameras := normalize_list r2.device_list, cameras_ts := now })) := by
  have staleCond : ∀ (st : St) (now : Int),
      (st.cameras = [] ∨ CACHE_TTL ≤ now - st.cameras_ts) →
      ¬(st.cameras ≠ [] ∧ now - st.cameras_ts < CACHE_TTL) := by
    intro st now h hx
    rcases h with h | h
    · exact hx.1 h
    · exact absurd hx.2 (not_lt.mpr h)
  refine ⟨?_, ?_, ?_⟩
  · intro fuel env now st c hc hne hlt
    rw [fetch_cameras, hc, if_pos ⟨hne, hlt⟩]
  · intro fuel env now st c r0 hc hstale h0 h0r h0c
    rw [fetch_cameras, hc, if_neg (staleCond st now hstale),
      signed_call_plain_ok .listing fuel env st c r0 hc h0 h0r h0c]
    simp [hc]
  · intro fuel env now st c r0 r1 r2 hc hstale h0 h0r h0c h1 h1r h1c h2 h2r h2c
    rw [fetch_cameras, hc, if_neg (staleCond st now hstale),
      signed_call_retry_ok .listing fuel env st c r0 r1 r2
        hc h0 h0r h0c h1 h1r h1c h2 h2r h2c]
    rfl

/-- C3 witness: `C3_claim` on the concrete cached state at age 50 s (the
scripted oracle would return a hard error, so the equality also exhibits
that no request was issued), and on the concrete empty-cache state. -/
theorem C3_witness :
    fetch_cameras 5 envErr 150 stCached = (.ok [exCamera], stCached)
    ∧ fetch_cameras 3 envList 500 stInit
      = (.ok [exCamera],
         { stInit with
            cameras := [exCamera], cameras_ts := 500,
            calls := [⟨.listing, some "tok0"⟩] }) :=
  ⟨C3_claim.1 5 envErr 150 stCached exCreds rfl (by decide) (by decide),
   C3_claim.2.1 2 envList 500 stInit exCreds respList rfl (Or.inl rfl)
     rfl rfl (Or.inl rfl)⟩

/-! ## C4: failed refresh leaves the cache untouched -/

/-- C4: whenever `fetch_cameras` raises (any error — vendor error code,
network failure, double expiry, …), the cached entries and the fetch
timestamp in the final state are exactly the ones from before the call;
stale data is never served as a fallback (the result is the error, not a
list). -/
theorem C4_claim :
    ∀ (fuel : Nat) (env : Env) (now : Int) (st : St) (e : Err) (st' : St),
      fetch_cameras fuel env now st = (.error e, st') →
      st'.cameras = st.cameras ∧ st'.cameras_ts = st.cameras_ts := by
  intro fuel env now st e st' h
  rw [fetch_cameras] at h
  cases hc : st.creds with
  | none => rw [hc] at h; simp at h
  | some c =>
    rw [hc] at h
    by_cases hfresh : st.cameras ≠ [] ∧ now - st.cameras_ts < CACHE_TTL
    · rw [if_pos hfresh] at h
      simp at h
    · rw [if_neg hfresh] at h
      rcases hs : signed_call .listing fuel env st with ⟨res, st2⟩
      rw [hs] at h
      have hi := signed_call_inv .listing fuel env st
      rw [hs] at hi
      cases res with
      | ok d => simp at h
      | error e2 =>
        have h2 : st2 = st' := congrArg Prod.snd h
        rw [← h2]
        exact ⟨hi.1, hi.2.1⟩

/-- C4 witness: `C4_claim` on the concrete cached state whose stale-cache
refresh is answered by a hard vendor error: the cache still holds
`[exCamera]` fetched at t = 100. -/
theorem C4_witness :
    (⟨some exCreds, .missing, [exCamera], 100,
      [⟨.listing, some "tok0"⟩]⟩ : St).cameras = stCached.cameras
    ∧ (⟨some exCreds, .missing, [exCamera], 100,
        [⟨.listing, some "tok0"⟩]⟩ : St).cameras_ts = stCached.cameras_ts :=
  C4_claim 5 envErr 300 stCached (.wyzeApi "5000" "boom")
    ⟨some exCreds, .missing, [exCamera], 100, [⟨.listing, some "tok0"⟩]⟩
    (by decide)

/-! ## C5: unknown slug on device-scoped routes -/

/-- Every request `fetch_cameras` issues is a device-listing or a
refresh-token request. -/
theorem fetch_calls_ext (fuel : Nat) (env : Env) (now : Int) (st : St) :
    ∃ ex, (fetch_cameras fuel env now st).2.calls = st.calls ++ ex
      ∧ ∀ a ∈ ex, a.kind = CallKind.listing ∨ a.kind = CallKind.refreshTok := by
  rw [fetch_cameras]
  cases hc : st.creds with
  | none => exact ⟨[], by simp, by simp⟩
  | some c =>
    by_cases hfresh : st.cameras ≠ [] ∧ now - st.cameras_ts < CACHE_TTL
    · rw [if_pos hfresh]
      exact ⟨[], by simp, by simp⟩
    · rw [if_neg hfresh]
      rcases hs : signed_call .listing fuel env st with ⟨res, st2⟩
      have hi := signed_call_inv .listing fuel env st
      rw [hs] at hi
      obtain ⟨_, _, ex, hex, hk⟩ := hi
      cases res with
      | error e => exact ⟨ex, hex, hk⟩
      | ok d => exact ⟨ex, hex, hk⟩

/-- Same for `_find_camera` (it only calls `fetch_cameras` and scans). -/
theorem find_camera_ext (fuel : Nat) (env : Env) (now : Int) (slug : String)
    (st : St) (res : Except Err (Option Camera)) (st' : St)
    (h : find_camera fuel env now slug st = (res, st')) :
    ∃ ex, st'.calls = st.calls ++ ex
      ∧ ∀ a ∈ ex, a.kind = CallKind.listing ∨ a.kind = CallKind.refreshTok := by
  rw [find_camera] at h
  rcases hf : fetch_cameras fuel env now st with ⟨fres, stf⟩
  rw [hf] at h
  have he := fetch_calls_ext fuel env now st
  rw [hf] at he
  cases fres with
  | ok cams =>
    have h2 : stf = st' := congrArg Prod.snd h
    exact h2 ▸ he
  | error e =>
    have h2 : stf = st' := congrArg Prod.snd h
    exact h2 ▸ he

/-- C5 counterexample: device-scoped lookup of an unknown slug against an
empty cache does return 404 with an error body, but it first issues a
device-listing vendor call (one request in the trace), contradicting
"never issues a vendor call". -/
theorem C5_counterexample :
    api_camera_detail 5 envList 500 "nope" stInit
      = (.ok ⟨404, .errorBody "Camera not found"⟩,
         ⟨some exCreds, .missing, [exCamera], 500, [⟨.listing, some "tok0"⟩]⟩)
    ∧ (api_camera_detail 5 envList 500 "nope" stInit).2.calls.length = 1 := by
  decide

/-- C5 (amended): for every slug matching no device, each device-scoped
route (`/api/{slug}`, `/api/{slug}/info`, `/api/{slug}/{action}`,
`/signaling/{slug}`, `/thumb/{slug}`) returns a 404 outcome with an error
body and issues no device-scoped vendor call: the only requests made by
the whole handler are the device-listing (and possible token-refresh)
requests that the `list()` inside the slug lookup may perform. -/
theorem C5_claim :
    (∀ (fuel : Nat) (env : Env) (now : Int) (slug : String) (st st' : St),
      find_camera fuel env now slug st = (.ok none, st') →
      api_camera_detail fuel env now slug st
        = (.ok ⟨404, .errorBody "Camera not found"⟩, st'))
    ∧ (∀ (fuel : Nat) (env : Env) (now : Int) (slug : String) (st st' : St),
      find_camera fuel env now slug st = (.ok none, st') →
      api_camera_info fuel env now slug st
        = (.ok ⟨404, .errorBody "Camera not found"⟩, st'))
    ∧ (∀ (fuel : Nat) (env : Env) (now : Int) (slug action : String)
        (value : Option String) (st st' : St),
      find_camera fuel env now slug st = (.ok none, st') →
      api_camera_action fuel env now slug action value st
        = (.ok ⟨404, .errorBody "Camera not found"⟩, st'))
    ∧ (∀ (unquote : String → String) (fuel : Nat) (env : Env) (now : Int)
        (slug : String) (st st' : St),
      find_camera fuel env now slug st = (.ok none, st') →
      api_signaling unquote fuel env now slug st
        = (.ok ⟨404, .errorBody "Camera not found"⟩, st'))
    ∧ (∀ (fuel : Nat) (env : Env) (now : Int) (slug : String) (st st' : St),
      find_camera fuel env now slug st = (.ok none, st') →
      api_thumbnail fuel env now slug st
        = (.ok ⟨404, .errorBody "No thumbnail"⟩, st'))
    ∧ (∀ (fuel : Nat) (env : Env) (now : Int) (slug : String) (st : St)
        (res : Except Err (Option Camera)) (st' : St),
      find_camera fuel env now slug st = (res, st') →
      ∃ ex, st'.calls = st.calls ++ ex
        ∧ ∀ a ∈ ex, a.kind = CallKind.listing ∨ a.kind = CallKind.refreshTok) := by
  refine ⟨?_, ?_, ?_, ?_, ?_, ?_⟩
  · intro fuel env now slug st st' h
    rw [api_camera_detail, h]
  · intro fuel env now slug st st' h
    rw [api_camera_info, h]
  · intro fuel env now slug action value st st' h
    rw [api_camera_action, h]
  · intro unquote fuel env now slug st st' h
    rw [api_signaling, h]
  · intro fuel env now slug st st' h
    rw [api_thumbnail, h]
  · exact fun fuel env now slug st res st' h =>
      find_camera_ext fuel env now slug st res st' h

/-- C5 witness: `C5_claim` on the concrete unknown slug `"nope"` with the
single-camera listing oracle. -/
theorem C5_witness :
    api_signaling (fun s => s) 5 envList 500 "nope" stInit
      = (.ok ⟨404, .errorBody "Camera not found"⟩,
         ⟨some exCreds, .missing, [exCamera], 500, [⟨.listing, some "tok0"⟩]⟩) :=
  C5_claim.2.2.2.1 (fun s => s) 5 envList 500 "nope" stInit
    ⟨some exCreds, .missing, [exCamera], 500, [⟨.listing, some "tok0"⟩]⟩
    (by decide)

/-! ## C9: unauthenticated `list()` -/

/-- C9: with no credentials, `fetch_cameras` returns the empty sequence,
raises nothing, and leaves the state — the request trace included —
completely unchanged. -/
theorem C9_claim :
    ∀ (fuel : Nat) (env : Env) (now : Int) (st : St),
      st.creds = none → fetch_cameras fuel env now st = (.ok [], st) := by
  intro fuel env now st h
  rw [fetch_cameras, h]

/-- C9 witness: `C9_claim` on the concrete unauthenticated state. -/
theorem C9_witness :
    fetch_cameras 0 envErr 0 (⟨none, .missing, [], 0, []⟩ : St)
      = (.ok [], ⟨none, .missing, [], 0, []⟩) :=
  C9_claim 0 envErr 0 ⟨none, .missing, [], 0, []⟩ rfl

/-! ## C10: the refresh mutation frame -/

/-- C10: a successful token refresh returns `()` and produces exactly the
state in which the credential's token pair is replaced by
`refreshedCreds` (each field falling back to its previous value when the
response omits it), the mutated credential is persisted to the token
file, and one refresh request was recorded; `refreshedCreds` changes
neither `phone_id` (the client device id) nor any other field. -/
theorem C10_claim :
    ∀ (fuel : Nat) (env : Env) (st : St) (c : Creds) (r : VResp),
      st.creds = some c → env st.calls.length = r → r.raises = false →
      (r.code = "1" ∨ r.code = "0") →
      refresh_token (fuel + 1) env st
        = (.ok (),
           { st with
              creds := some (refreshedCreds c r),
              tokenFile := .stored (refreshedCreds c r),
              calls := st.calls ++ [⟨.refreshTok, some c.access_token⟩] })
      ∧ (refreshedCreds c r).phone_id = c.phone_id
      ∧ (refreshedCreds c r).extra = c.extra
      ∧ (r.access_token = none →
          (refreshedCreds c r).access_token = c.access_token)
      ∧ (r.refresh_token = none →
          (refreshedCreds c r).refresh_token = c.refresh_token) := by
  intro fuel env st c r hc h hr hcode
  refine ⟨?_, rfl, rfl, ?_, ?_⟩
  · rw [refresh_token, hc]
    simp only [issue, h, hr, Bool.false_eq_true, if_false]
    rw [validate_ok fuel env _ r hcode]
    simp [hc, refreshedCreds]
  · intro h0
    simp [refreshedCreds, h0]
  · intro h0
    simp [refreshedCreds, h0]

/-- C10 witness: `C10_claim` on the concrete state and a refresh response
carrying only a new access token: the refresh token and phone id are
retained, the result is persisted, and one refresh request was issued. -/
theorem C10_witness :
    refresh_token 3 envRef stInit
      = (.ok (),
         { stInit with
            creds := some (refreshedCreds exCreds respRef),
            tokenFile := .stored (refreshedCreds exCreds respRef),
            calls := [⟨.refreshTok, some "tok0"⟩] }) :=
  (C10_claim 2 envRef stInit exCreds respRef rfl rfl rfl (Or.inl rfl)).1

end Wyze
